import Mathlib

/-
  Verification development for pg_trace_tool.c, a tracing extension that
  dynamically invokes a stored routine from a textual call string, intercepts
  the executor-start hook to record every nested statement, and renders a
  report.  The C file is shallowly embedded below: each static C function
  becomes a Lean definition of the same name, the four process-wide globals
  (trace_list, ExecutorStart_hook/ExecutorRun_hook together with the saved
  prev_* values, current_function_name) become fields of an explicit state
  record `St`, and the host services the module calls into (syscache lookups,
  LookupFuncName, type input functions, timestamps) are abstracted into an
  environment record `Env`.  Machine pointers and palloc/pfree bookkeeping
  have no observable effect on the traced values and are dropped; C strings
  are modelled as Lean `String` / `List Char`.
-/

/- ## Character-level helpers (C library semantics) -/

/-- C `isspace`: the six standard whitespace characters. -/
def isSpaceC (c : Char) : Bool :=
  c = ' ' || c = '\t' || c = '\n' || c = '\x0b' || c = '\x0c' || c = '\r'

/-- Naive split of a character list at every occurrence of `d`, keeping empty
fields.  This is the textbook "split on a delimiter" used as the reference
point for the `strtok_r` behaviour below. -/
def splitOnChar (d : Char) : List Char → List (List Char)
  | [] => [[]]
  | c :: rest =>
    if c = d then [] :: splitOnChar d rest
    else
      match splitOnChar d rest with
      | [] => [[c]]
      | t :: ts => (c :: t) :: ts

/-- Split on `','`, keeping empty fields. -/
def splitOnComma : List Char → List (List Char) :=
  splitOnChar ','

/-- The `strtok_r(str, ",", &saveptr)` loop of `parse_function_arguments`
(src/pg_trace_tool.c:304-314), embedded as a left-to-right scanner: runs of
the delimiter `','` are skipped, and each maximal nonempty run of
non-delimiter characters is emitted as one token.  `cur` is the token being
accumulated (in reverse). -/
def strtok_aux : List Char → List Char → List (List Char)
  | cur, [] => if cur.isEmpty then [] else [cur.reverse]
  | cur, c :: rest =>
    if c = ',' then
      if cur.isEmpty then strtok_aux [] rest else cur.reverse :: strtok_aux [] rest
    else strtok_aux (c :: cur) rest

/-- All `','`-separated tokens of a character list, as `strtok_r` produces
them (adjacent delimiters collapsed, no empty tokens). -/
def strtok_commas (cs : List Char) : List (List Char) :=
  strtok_aux [] cs

/-- C `strchr(s, '(')` followed by the `args_str++` of
src/pg_trace_tool.c:284-287: the characters strictly after the first `'('`,
or `none` when there is no `'('`. -/
def afterFirstParen : List Char → Option (List Char)
  | [] => none
  | c :: rest => if c = '(' then some rest else afterFirstParen rest

/-- C `strrchr(s, ')')` followed by `*end = '\0'`
(src/pg_trace_tool.c:290-296): the characters strictly before the last `')'`,
or `none` when there is no `')'`. -/
def beforeLastParen : List Char → Option (List Char)
  | [] => none
  | c :: rest =>
    match beforeLastParen rest with
    | some tail => some (c :: tail)
    | none => if c = ')' then some [] else none

/-- C `strtok(s, "(")`, first call (src/pg_trace_tool.c:340, 412): skip any
leading `'('` delimiters, then return the maximal run of non-`'('`
characters; `none` when the string is empty or consists only of `'('`. -/
def strtok_paren (cs : List Char) : Option (List Char) :=
  match cs.dropWhile (· = '(') with
  | [] => none
  | c :: rest => some (List.takeWhile (fun x => x ≠ '(') (c :: rest))

/-- The function-name string that `parse_function_call` and
`execute_function` extract with `strtok(copy, "(")`. -/
def parsed_name (s : String) : Option String :=
  (strtok_paren s.toList).map (fun cs => String.mk cs)

/- ## Data model -/

/-- The error conditions raised by `ereport(ERROR, ...)` in the module, one
constructor per distinct report site that is reachable in the embedding. -/
inductive Err where
  /-- "Invalid function call syntax: missing closing parenthesis"
  (src/pg_trace_tool.c:291-294). -/
  | parseMissingClose
  /-- "Invalid function call syntax": `strtok(copy, "(")` returned NULL
  (src/pg_trace_tool.c:341-347, 413-419). -/
  | parseBadCall
  /-- "invalid function call syntax" / "Invalid function name":
  `stringToQualifiedNameList` produced no names
  (src/pg_trace_tool.c:350-356, 422-428). -/
  | invalidName
  /-- "function %s does not exist": `LookupFuncName` found no routine with
  the given name and arity (src/pg_trace_tool.c:364-373). -/
  | resolution (name : String)
  /-- "The function with Oid %u does not exist": a catalog lookup by oid
  failed (src/pg_trace_tool.c:100-104). -/
  | undefinedFunction (oid : Nat)
  /-- "The function %s does not have %d arguments": argument index out of
  range in `get_func_argtype` (src/pg_trace_tool.c:112-116). -/
  | noSuchArg (oid : Nat) (argnum : Nat)
  /-- "No input function available for type %s"
  (src/pg_trace_tool.c:459-463). -/
  | noInputFunc (ty : String)
  /-- "Invalid input syntax for type %s: %s": the type's input function
  rejected the literal (src/pg_trace_tool.c:471-478). -/
  | literalConversion (ty : String) (lit : String)
  /-- "Wrong number of arguments: got %d, expected %d"
  (src/pg_trace_tool.c:487-492). -/
  | arity (got : Nat) (expected : Nat)
  /-- "function execution failed": the invoked routine raised
  (src/pg_trace_tool.c:499-504). -/
  | invocation
  /-- "Function call failed": the invocation returned SQL NULL
  (src/pg_trace_tool.c:507-511). -/
  | nullResult
deriving DecidableEq

/-- One node of the `TraceEntry` singly-linked list
(src/pg_trace_tool.c:34-43); `exec_time` is the abstract timestamp counter. -/
structure TraceEntry where
  function_name : String
  sql_text : String
  exec_time : Nat
deriving DecidableEq

/-- A value stored in one of the two executor hook slots: empty, some
foreign interceptor installed by another module (identified abstractly by a
number), or one of this module's two hook functions. -/
inductive HookV where
  | noHook
  | ext (n : Nat)
  | traceStart
  | traceRun
deriving DecidableEq

/-- The process-wide mutable state the module touches: the globals of
src/pg_trace_tool.c:46-52 (`trace_list`, the saved `prev_ExecutorStart` /
`prev_ExecutorRun`, `current_function_name`), the two executor hook slots
owned by the host, and an abstract clock standing for wall time (advanced
whenever `GetCurrentTimestamp` is read). -/
@[ext] structure St where
  trace_list : List TraceEntry
  executorStartHook : HookV
  executorRunHook : HookV
  prevStart : HookV
  prevRun : HookV
  current_function_name : Option String
  clock : Nat
deriving DecidableEq

/-- Result of `FunctionCallInvoke`: either the routine raises an error, or it
returns, possibly with `fcinfo.isnull` set (modelled as `ret none`). -/
inductive Outcome where
  | raises
  | ret (v : Option String)

/-- A routine stored in the host catalog: oid, qualified name (as the string
`NameListToString` would print), declared parameter type names, the source
texts of the statements its execution feeds through the executor (in
temporal order), and its result as a function of the positional argument
vector (each argument a coerced value paired with its `argnull` flag). -/
structure Routine where
  oid : Nat
  name : String
  paramTypes : List String
  body : List String
  outcome : List (String × Bool) → Outcome

/-- The host environment (syscache, fmgr, timestamp formatting): the routine
catalog, whether a type name has an input function (`pg_type.typinput`), the
input function itself (text literal to value, `none` on a parse failure),
and `timestamptz_to_str`. -/
structure Env where
  catalog : List Routine
  hasInputFn : String → Bool
  inputFn : String → String → Option String
  fmtTime : Nat → String

/-- Host service `stringToQualifiedNameList`: split an identifier string at
`'.'` into its nonempty segments (external to src/, modelled without quoting
or case folding, which no claim depends on). -/
def stringToQualifiedNameList (s : String) : List String :=
  ((splitOnChar '.' s.toList).filter (fun t => !t.isEmpty)).map (fun t => String.mk t)

/-- Host service `NameListToString`: join the segments with `'.'`. -/
def nameListToString : List String → String
  | [] => ""
  | [n] => n
  | n :: ns => n ++ "." ++ nameListToString ns

/-- Host service `LookupFuncName(names, nargs, _, false)`: find a catalog
routine with the given qualified name and exactly `nargs` declared
parameters. -/
def lookupFuncName (env : Env) (names : List String) (nargs : Nat) : Option Routine :=
  env.catalog.find? (fun r => r.name == nameListToString names && r.paramTypes.length == nargs)

/-- Syscache lookup by oid, as used by `fmgr_info` and `get_func_argtype`. -/
def byOid (env : Env) (oid : Nat) : Option Routine :=
  env.catalog.find? (fun r => r.oid == oid)

/-- `get_func_argtype` (src/pg_trace_tool.c:88-122): the type of parameter
`argnum` of the routine with the given oid; errors when the routine does not
exist or has at most `argnum` parameters. -/
def get_func_argtype (env : Env) (oid : Nat) (argnum : Nat) : Except Err String :=
  match byOid env oid with
  | none => .error (.undefinedFunction oid)
  | some r =>
    match r.paramTypes[argnum]? with
    | none => .error (.noSuchArg oid argnum)
    | some ty => .ok ty

/- ## Embedded operations -/

/-- `parse_function_arguments` (src/pg_trace_tool.c:270-317).  No `'('` in
the call string: return NIL (no error).  `'('` present but no `')'` after
it: error "missing closing parenthesis".  Otherwise tokenize the substring
between the first `'('` and the last `')'` with `strtok_r` on `','` and
strip leading whitespace from each token. -/
def parse_function_arguments (s : String) : Except Err (List String) :=
  match afterFirstParen s.toList with
  | none => .ok []
  | some rest =>
    match beforeLastParen rest with
    | none => .error .parseMissingClose
    | some inner =>
      .ok ((strtok_commas inner).map (fun t => String.mk (t.dropWhile isSpaceC)))

/-- `parse_function_call` (src/pg_trace_tool.c:325-377): extract the name
with `strtok(copy, "(")`, turn it into a qualified name list, parse the
arguments, and resolve via `LookupFuncName` keyed on the name and the token
count; returns the routine's oid and the raw tokens. -/
def parse_function_call (env : Env) (call : String) : Except Err (Nat × List String) :=
  match parsed_name call with
  | none => .error .parseBadCall
  | some nm =>
    let names := stringToQualifiedNameList nm
    if names = [] then .error .invalidName
    else
      match parse_function_arguments call with
      | .error e => .error e
      | .ok args =>
        match lookupFuncName env names args.length with
        | none => .error (.resolution (nameListToString names))
        | some r => .ok (r.oid, args)

/-- The argument-coercion loop of `execute_function`
(src/pg_trace_tool.c:436-485): for each raw token in order, look up the
declared parameter type at that index, require an input function for it,
run the input function on the raw token text (failure is reported as
"Invalid input syntax for type %s: %s" carrying the type name and the
literal), and record the value with `argnull[i] = false`. -/
def coerce_args (env : Env) (oid : Nat) : List String → Nat → Except Err (List (String × Bool))
  | [], _ => .ok []
  | a :: rest, i =>
    match get_func_argtype env oid i with
    | .error e => .error e
    | .ok ty =>
      if env.hasInputFn ty then
        match env.inputFn ty a with
        | none => .error (.literalConversion ty a)
        | some v =>
          match coerce_args env oid rest (i + 1) with
          | .error e => .error e
          | .ok vs => .ok ((v, false) :: vs)
      else .error (.noInputFunc ty)

/-- `trace_executor_start` (src/pg_trace_tool.c:130-191): read the clock,
prepend a new `TraceEntry` labelled with `current_function_name` (or
"Unknown") and the statement's source text to `trace_list`, then delegate
to the previous hook or the standard executor (both inert in this state). -/
def trace_executor_start (s : St) (stmt : String) : St :=
  let entry : TraceEntry := ⟨s.current_function_name.getD "Unknown", stmt, s.clock⟩
  { s with trace_list := entry :: s.trace_list, clock := s.clock + 1 }

/-- One nested statement reaching the executor: dispatch on the value held
in the `ExecutorStart_hook` slot.  Only this module's hook touches the
modelled state; a foreign interceptor, the empty slot (standard executor),
and `trace_executor_run` (src/pg_trace_tool.c:196-203, a pure delegate)
leave it unchanged. -/
def fire_statement (s : St) (stmt : String) : St :=
  match s.executorStartHook with
  | .traceStart => trace_executor_start s stmt
  | _ => s

/-- The nested statements triggered transitively by `FunctionCallInvoke`,
each re-entering the installed interceptors in temporal order. -/
def execute_statements (s : St) (body : List String) : St :=
  body.foldl fire_statement s

/-- `execute_function` (src/pg_trace_tool.c:386-514): `fmgr_info` by oid,
re-extract the name with `strtok` and set `current_function_name`, coerce
the arguments, re-check the argument count against `fn_nargs`, invoke the
routine (running its nested statements through the hooks), re-signal a
raise as "function execution failed", and reject a NULL result. -/
def execute_function (env : Env) (oid : Nat) (call : String) (args : List String) (s : St) :
    Except Err String × St :=
  match byOid env oid with
  | none => (.error (.undefinedFunction oid), s)
  | some r =>
    match parsed_name call with
    | none => (.error .parseBadCall, s)
    | some nm =>
      let names := stringToQualifiedNameList nm
      if names = [] then (.error .invalidName, s)
      else
        let s1 : St := { s with current_function_name := some (nameListToString names) }
        match coerce_args env oid args 0 with
        | .error e => (.error e, s1)
        | .ok argv =>
          if argv.length ≠ r.paramTypes.length then
            (.error (.arity argv.length r.paramTypes.length), s1)
          else
            let s2 := execute_statements s1 r.body
            match r.outcome argv with
            | .raises => (.error .invocation, s2)
            | .ret none => (.error .nullResult, s2)
            | .ret (some v) => (.ok v, s2)

/- ## Report generation -/

/-- The report header (src/pg_trace_tool.c:235-236). -/
def reportHeader : String := "函数执行跟踪报告\n==================\n\n"

/-- The block of `appendStringInfo` calls emitted for one trace entry with
1-based index `idx` (src/pg_trace_tool.c:243-249). -/
def renderEntry (fmt : Nat → String) (idx : Nat) (e : TraceEntry) : String :=
  "执行记录 #" ++ toString idx ++ ":\n" ++ "----------------\n" ++
  "函数名称: " ++ e.function_name ++ "\n" ++
  "SQL语句: " ++ e.sql_text ++ "\n" ++
  "执行时间: " ++ fmt e.exec_time ++ "\n" ++ "\n"

/-- The `while` loop of `generate_trace_report`
(src/pg_trace_tool.c:239-251): walk the list, counting entries and
appending each rendered entry to the accumulated `StringInfo` buffer. -/
def reportLoop (fmt : Nat → String) : String → Nat → List TraceEntry → String × Nat
  | acc, n, [] => (acc, n)
  | acc, n, e :: rest => reportLoop fmt (acc ++ renderEntry fmt (n + 1) e) (n + 1) rest

/-- `generate_trace_report` (src/pg_trace_tool.c:225-263): header, one block
per entry in list order, then either the "没有找到任何执行记录" line (empty
log) or the trailing entry-count line.  A pure function of the log and the
timestamp formatter. -/
def generate_trace_report (fmt : Nat → String) (log : List TraceEntry) : String :=
  let p := reportLoop fmt reportHeader 0 log
  if p.2 = 0 then p.1 ++ "没有找到任何执行记录\n"
  else p.1 ++ ("总计执行记录数: " ++ toString p.2 ++ "\n")

/- ## Entry point -/

/-- The `PG_TRY` body of `pg_trace_tool` (src/pg_trace_tool.c:555-590):
drain the leftover trace list, save the two hook slots into the `prev_*`
globals and install this module's hooks, parse and resolve the call,
execute the routine, render the report from the captured log, and on the
success path restore the hooks, drain the log and clear
`current_function_name`.  An error leaves the state as it stood when the
error was raised (the `PG_CATCH` cleanup is applied by `pg_trace_tool`). -/
def pg_trace_tool_try (env : Env) (call : String) (s0 : St) : Except Err String × St :=
  let s1 : St := { s0 with trace_list := [] }
  let s2 : St := { s1 with
    prevStart := s1.executorStartHook, prevRun := s1.executorRunHook,
    executorStartHook := HookV.traceStart, executorRunHook := HookV.traceRun }
  match parse_function_call env call with
  | .error e => (.error e, s2)
  | .ok (oid, args) =>
    match execute_function env oid call args s2 with
    | (.error e, s3) => (.error e, s3)
    | (.ok _, s3) =>
      let report := generate_trace_report env.fmtTime s3.trace_list
      let s4 : St := { s3 with
        executorStartHook := s3.prevStart, executorRunHook := s3.prevRun,
        trace_list := [], current_function_name := none }
      (.ok report, s4)

/-- `pg_trace_tool` (src/pg_trace_tool.c:520-613): run the `PG_TRY` body;
on an error, perform the `PG_CATCH` cleanup (drain the trace list, clear
`current_function_name`, restore both hook slots from the saved `prev_*`
values) and re-throw. -/
def pg_trace_tool (env : Env) (call : String) (s0 : St) : Except Err String × St :=
  match pg_trace_tool_try env call s0 with
  | (.ok r, s) => (.ok r, s)
  | (.error e, s) =>
    let s' : St := { s with
      trace_list := [], current_function_name := none,
      executorStartHook := s.prevStart, executorRunHook := s.prevRun }
    (.error e, s')

/- ## Spec-side definitions (for refinement-style claims) -/

/-- Spec-side rendering of a trace log from index `i` on: each entry in log
order with its 1-based index (written independently of the accumulating
`StringInfo` loop of the source). -/
def renderFrom (fmt : Nat → String) : Nat → List TraceEntry → String
  | _, [] => ""
  | i, e :: rest => renderEntry fmt i e ++ renderFrom fmt (i + 1) rest

/-- Report described by the spec's words: a header; for an empty log an
explicit "no records" line instead of an entry list; for a nonempty log the
entries in log order with 1-based indices followed by a trailing
count-of-entries line. -/
def report_spec (fmt : Nat → String) (log : List TraceEntry) : String :=
  if log = [] then reportHeader ++ "没有找到任何执行记录\n"
  else reportHeader ++ renderFrom fmt 1 log ++ ("总计执行记录数: " ++ toString log.length ++ "\n")

/-- The errors the spec's taxonomy calls ParseError (malformed call syntax:
missing delimiter or unusable name). -/
def isParseErr : Err → Bool
  | .parseMissingClose => true
  | .parseBadCall => true
  | .invalidName => true
  | _ => false

/- ## Concrete hosts used as test inputs -/

/-- Environment with the given catalog, every type having an input function
that accepts any literal verbatim, and timestamps printed as numbers. -/
def mkEnv (cat : List Routine) : Env :=
  { catalog := cat,
    hasInputFn := fun _ => true,
    inputFn := fun _ l => some l,
    fmtTime := fun n => toString n }

/-- A model of the integer type's input function: accepts strings of
decimal digits, rejects anything else (so it rejects "abc"). -/
def pg_int4_input (s : String) : Option String :=
  match s.toList with
  | [] => none
  | cs => if cs.all Char.isDigit then some s else none

/-- Host with an empty routine catalog. -/
def envNoCat : Env := mkEnv []

/-- Host with a zero-argument routine `f` that runs no nested statements
and returns a value. -/
def envF0 : Env := mkEnv [⟨1, "f", [], [], fun _ => .ret (some "0")⟩]

/-- Host whose only routine `f` has two parameters (no 3-parameter
overload exists). -/
def envF2 : Env := mkEnv [⟨1, "f", ["int4", "int4"], [], fun _ => .ret (some "0")⟩]

/-- Host for the trace-ordering claim: a zero-argument routine `f` whose
execution triggers the two statements `S1` then `S2`. -/
def envTrace (S1 S2 : String) : Env := mkEnv [⟨1, "f", [], [S1, S2], fun _ => .ret (some "v")⟩]

/-- Host for the coercion claim: routine `g` with one integer parameter,
where the integer type's input function is `pg_int4_input`. -/
def envG : Env :=
  { catalog := [⟨2, "g", ["int4"], [], fun _ => .ret (some "1")⟩],
    hasInputFn := fun _ => true,
    inputFn := fun ty l => if ty = "int4" then pg_int4_input l else some l,
    fmtTime := fun n => toString n }

/-- Host for the null-result claim: a zero-argument routine `p` with the
given body whose invocation returns SQL NULL. -/
def envP (body : List String) : Env := mkEnv [⟨3, "p", [], body, fun _ => .ret none⟩]

/-- Host for the empty-token claim: two routines named `f`, with three and
two parameters respectively (the 3-parameter one listed first). -/
def envF32 : Env :=
  mkEnv [⟨8, "f", ["a", "b", "c"], [], fun _ => .ret (some "0")⟩,
         ⟨9, "f", ["a", "b"], [], fun _ => .ret (some "0")⟩]

/-- Host for the argnull witness: routine `t` with one text parameter. -/
def envT : Env := mkEnv [⟨4, "t", ["text"], [], fun _ => .ret (some "x")⟩]

/-- A pristine initial state: empty trace list, no hooks installed, no
active routine name. -/
def st0 : St := ⟨[], .noHook, .noHook, .noHook, .noHook, none, 0⟩

/-- An initial state in which another extension already installed foreign
interceptors in both hook slots. -/
def stExt : St := ⟨[], .ext 7, .ext 8, .noHook, .noHook, none, 0⟩

/-- A dirty state: stale trace entries, stale saved hooks and a stale
active-routine name, but the same hook slots and clock as `stExt`. -/
def stDirty : St := ⟨[⟨"x", "y", 3⟩], .ext 7, .ext 8, .traceStart, .traceRun, some "z", 0⟩

/- ## Tokenizer lemmas -/

lemma splitOnChar_ne_nil (d : Char) (cs : List Char) : splitOnChar d cs ≠ [] := by
  cases cs with
  | nil => simp [splitOnChar]
  | cons c rest =>
    simp only [splitOnChar]
    split
    · exact List.cons_ne_nil _ _
    · split <;> exact List.cons_ne_nil _ _

lemma splitOnComma_cons (cs : List Char) : ∃ t ts, splitOnComma cs = t :: ts := by
  cases hq : splitOnComma cs with
  | nil => exact absurd hq (splitOnChar_ne_nil ',' cs)
  | cons x xs => exact ⟨x, xs, rfl⟩

lemma strtok_aux_eq (cs : List Char) : ∀ (cur t : List Char) (ts : List (List Char)),
    splitOnComma cs = t :: ts →
    strtok_aux cur cs = ((cur.reverse ++ t) :: ts).filter (fun l => !l.isEmpty) := by
  induction cs with
  | nil =>
    intro cur t ts h
    simp only [splitOnComma, splitOnChar] at h
    injection h with h1 h2
    subst h1; subst h2
    by_cases hc : cur = []
    · subst hc; decide
    · have h1 : cur.isEmpty = false := by simpa using hc
      have h2 : cur.reverse.isEmpty = false := by simpa using hc
      simp [strtok_aux, h1, h2]
  | cons c rest ih =>
    intro cur t ts h
    obtain ⟨t', ts', hsp⟩ := splitOnComma_cons rest
    by_cases hcd : c = ','
    · subst hcd
      simp only [splitOnComma, splitOnChar, if_pos rfl] at h
      injection h with h1 h2
      subst h1; subst h2
      have hrec := ih [] t' ts' hsp
      simp only [List.reverse_nil, List.nil_append] at hrec
      simp only [splitOnComma] at hsp
      simp only [strtok_aux, if_pos rfl, List.append_nil, hsp]
      by_cases hc : cur = []
      · subst hc
        simp [hrec, hsp]
      · have h1 : cur.isEmpty = false := by simpa using hc
        have h2 : cur.reverse.isEmpty = false := by simpa using hc
        simp [h1, h2, hrec, hsp]
    · simp only [splitOnComma, splitOnChar, if_neg hcd] at h
      simp only [splitOnComma] at hsp
      rw [hsp] at h
      injection h with h1 h2
      subst h1; subst h2
      have hrec := ih (c :: cur) t' ts' (by simpa [splitOnComma] using hsp)
      simp only [strtok_aux, if_neg hcd]
      rw [hrec, List.reverse_cons, List.append_assoc, List.singleton_append]

lemma strtok_commas_eq (cs : List Char) :
    strtok_commas cs = (splitOnComma cs).filter (fun l => !l.isEmpty) := by
  obtain ⟨t, ts, h⟩ := splitOnComma_cons cs
  rw [strtok_commas, strtok_aux_eq cs [] t ts h, h]
  simp

/- ## Parenthesis-scanning lemmas -/

lemma afterFirstParen_none (cs : List Char) (h : '(' ∉ cs) : afterFirstParen cs = none := by
  induction cs with
  | nil => rfl
  | cons c rest ih =>
    have h1 : ¬ c = '(' := by
      intro hh; subst hh; exact h (List.mem_cons_self _ _)
    have h2 : '(' ∉ rest := fun hh => h (List.mem_cons_of_mem _ hh)
    simp [afterFirstParen, h1, ih h2]

lemma afterFirstParen_mem (cs : List Char) (h : '(' ∈ cs) :
    ∃ r, afterFirstParen cs = some r ∧ ∀ x ∈ r, x ∈ cs := by
  induction cs with
  | nil => cases h
  | cons c rest ih =>
    by_cases hc : c = '('
    · subst hc
      exact ⟨rest, by simp [afterFirstParen], fun x hx => List.mem_cons_of_mem _ hx⟩
    · have h' : '(' ∈ rest := by
        rcases List.mem_cons.mp h with h1 | h1
        · exact absurd h1.symm hc
        · exact h1
      obtain ⟨r, hr, hsub⟩ := ih h'
      exact ⟨r, by simp [afterFirstParen, hc, hr], fun x hx => List.mem_cons_of_mem _ (hsub x hx)⟩

lemma beforeLastParen_none (cs : List Char) (h : ')' ∉ cs) : beforeLastParen cs = none := by
  induction cs with
  | nil => rfl
  | cons c rest ih =>
    have h1 : ¬ c = ')' := by
      intro hh; subst hh; exact h (List.mem_cons_self _ _)
    have h2 : ')' ∉ rest := fun hh => h (List.mem_cons_of_mem _ hh)
    simp [beforeLastParen, h1, ih h2]

/- ## Report lemmas -/

lemma reportLoop_eq (fmt : Nat → String) (log : List TraceEntry) :
    ∀ (acc : String) (n : Nat),
      reportLoop fmt acc n log = (acc ++ renderFrom fmt (n + 1) log, n + log.length) := by
  induction log with
  | nil => intro acc n; simp [reportLoop, renderFrom, String.append_empty]
  | cons e rest ih =>
    intro acc n
    simp only [reportLoop, renderFrom, ih, List.length_cons, Prod.mk.injEq]
    constructor
    · rw [String.append_assoc]
    · omega

/- ## State-machine lemmas -/

lemma fire_statement_prevStart (s : St) (q : String) :
    (fire_statement s q).prevStart = s.prevStart := by
  unfold fire_statement trace_executor_start
  split <;> rfl

lemma fire_statement_prevRun (s : St) (q : String) :
    (fire_statement s q).prevRun = s.prevRun := by
  unfold fire_statement trace_executor_start
  split <;> rfl

lemma execute_statements_prevStart (body : List String) :
    ∀ s : St, (execute_statements s body).prevStart = s.prevStart := by
  induction body with
  | nil => intro s; rfl
  | cons q rest ih =>
    intro s
    show (execute_statements (fire_statement s q) rest).prevStart = s.prevStart
    rw [ih (fire_statement s q), fire_statement_prevStart]

lemma execute_statements_prevRun (body : List String) :
    ∀ s : St, (execute_statements s body).prevRun = s.prevRun := by
  induction body with
  | nil => intro s; rfl
  | cons q rest ih =>
    intro s
    show (execute_statements (fire_statement s q) rest).prevRun = s.prevRun
    rw [ih (fire_statement s q), fire_statement_prevRun]

lemma execute_function_prevStart (env : Env) (oid : Nat) (call : String) (args : List String)
    (s : St) : ((execute_function env oid call args s).2).prevStart = s.prevStart := by
  unfold execute_function
  cases byOid env oid with
  | none => rfl
  | some r =>
    cases parsed_name call with
    | none => rfl
    | some nm =>
      by_cases hq : stringToQualifiedNameList nm = []
      · simp [if_pos hq]
      · simp only [if_neg hq]
        cases coerce_args env oid args 0 with
        | error e => rfl
        | ok argv =>
          by_cases ha : argv.length ≠ r.paramTypes.length
          · simp [if_pos ha]
          · simp only [if_neg ha]
            cases hov : r.outcome argv with
            | raises => simp [execute_statements_prevStart]
            | ret v => cases v <;> simp [execute_statements_prevStart]

lemma execute_function_prevRun (env : Env) (oid : Nat) (call : String) (args : List String)
    (s : St) : ((execute_function env oid call args s).2).prevRun = s.prevRun := by
  unfold execute_function
  cases byOid env oid with
  | none => rfl
  | some r =>
    cases parsed_name call with
    | none => rfl
    | some nm =>
      by_cases hq : stringToQualifiedNameList nm = []
      · simp [if_pos hq]
      · simp only [if_neg hq]
        cases coerce_args env oid args 0 with
        | error e => rfl
        | ok argv =>
          by_cases ha : argv.length ≠ r.paramTypes.length
          · simp [if_pos ha]
          · simp only [if_neg ha]
            cases hov : r.outcome argv with
            | raises => simp [execute_statements_prevRun]
            | ret v => cases v <;> simp [execute_statements_prevRun]

lemma run_state_indep (env : Env) (c : String) (l1 l2 : List TraceEntry)
    (hs hr p1s p1r p2s p2r : HookV) (c1 c2 : Option String) (k : Nat) :
    pg_trace_tool env c ⟨l1, hs, hr, p1s, p1r, c1, k⟩ =
    pg_trace_tool env c ⟨l2, hs, hr, p2s, p2r, c2, k⟩ := by
  cases hp : parse_function_call env c with
  | error e => simp [pg_trace_tool, pg_trace_tool_try, hp]
  | ok pr =>
    obtain ⟨oid, args⟩ := pr
    simp only [pg_trace_tool, pg_trace_tool_try, hp]
    unfold execute_function
    cases hb : byOid env oid with
    | none => simp [hb]
    | some r =>
      simp only [hb]
      cases hn : parsed_name c with
      | none => simp [hn]
      | some nm =>
        simp only [hn]
        by_cases hq : stringToQualifiedNameList nm = []
        · simp [hq]
        · simp [if_neg hq]


/- ## Claim theorems -/

/-- C1: every invocation of the entry point — whether it returns a report or
fails at any stage — leaves the trace log empty, leaves both executor hook
slots holding exactly the values they held immediately before the
invocation, and clears the active-routine-name context; moreover the run of
any invocation is determined by the hook slots and the clock alone (the
trace log, saved previous hooks and active-routine name of the initial
state are irrelevant), so a failing invocation N leaves no state that
affects a subsequent invocation N+1. -/
theorem c1_cleanup_isolation (env : Env) (call : String) (s0 : St) :
    (pg_trace_tool env call s0).snd.trace_list = [] ∧
    (pg_trace_tool env call s0).snd.executorStartHook = s0.executorStartHook ∧
    (pg_trace_tool env call s0).snd.executorRunHook = s0.executorRunHook ∧
    (pg_trace_tool env call s0).snd.current_function_name = none ∧
    (∀ (t1 t2 : St) (c : String),
      t1.executorStartHook = t2.executorStartHook →
      t1.executorRunHook = t2.executorRunHook →
      t1.clock = t2.clock →
      pg_trace_tool env c t1 = pg_trace_tool env c t2) := by
  obtain ⟨l0, hs0, hr0, ps0, pr0, c0, k0⟩ := s0
  have key : (pg_trace_tool env call ⟨l0, hs0, hr0, ps0, pr0, c0, k0⟩).snd.trace_list = [] ∧
      (pg_trace_tool env call ⟨l0, hs0, hr0, ps0, pr0, c0, k0⟩).snd.executorStartHook = hs0 ∧
      (pg_trace_tool env call ⟨l0, hs0, hr0, ps0, pr0, c0, k0⟩).snd.executorRunHook = hr0 ∧
      (pg_trace_tool env call ⟨l0, hs0, hr0, ps0, pr0, c0, k0⟩).snd.current_function_name
        = none := by
    cases hp : parse_function_call env call with
    | error e => simp [pg_trace_tool, pg_trace_tool_try, hp]
    | ok pr =>
      obtain ⟨oid, args⟩ := pr
      rcases hE : execute_function env oid call args ⟨[], .traceStart, .traceRun, hs0, hr0, c0, k0⟩
        with ⟨res, s3⟩
      have hp1 : s3.prevStart = hs0 := by
        have h := execute_function_prevStart env oid call args
          ⟨[], .traceStart, .traceRun, hs0, hr0, c0, k0⟩
        rw [hE] at h
        exact h
      have hp2 : s3.prevRun = hr0 := by
        have h := execute_function_prevRun env oid call args
          ⟨[], .traceStart, .traceRun, hs0, hr0, c0, k0⟩
        rw [hE] at h
        exact h
      cases res with
      | error e => simp [pg_trace_tool, pg_trace_tool_try, hp, hE, hp1, hp2]
      | ok v => simp [pg_trace_tool, pg_trace_tool_try, hp, hE, hp1, hp2]
  refine ⟨key.1, key.2.1, key.2.2.1, key.2.2.2, ?_⟩
  intro t1 t2 c hh1 hh2 hh3
  obtain ⟨a1, b1, d1, e1, f1, g1, m1⟩ := t1
  obtain ⟨a2, b2, d2, e2, f2, g2, m2⟩ := t2
  have hb : b1 = b2 := hh1
  have hd : d1 = d2 := hh2
  have hm : m1 = m2 := hh3
  subst hb; subst hd; subst hm
  exact run_state_indep env c a1 a2 b1 d1 e1 f1 e2 f2 g1 g2 m1

/-- Witness for C1: a failing invocation against an empty catalog leaves an
empty trace log, and an invocation started from a dirty state (stale trace
entries, stale saved hooks, stale active-routine name) behaves exactly as
one started from a clean state with the same hook slots and clock. -/
theorem c1_witness :
    (pg_trace_tool envNoCat "f()" stExt).snd.trace_list = [] ∧
    pg_trace_tool envF0 "q()" stExt = pg_trace_tool envF0 "q()" stDirty := by
  refine ⟨(c1_cleanup_isolation envNoCat "f()" stExt).1, ?_⟩
  exact (c1_cleanup_isolation envF0 "x" stExt).2.2.2.2 stExt stDirty "q()" rfl rfl rfl

/-- C2 counterexample: the claim says a call string with no `'('` fails with
a ParseError, but `"f"` (no parenthesis), invoked against a catalog holding
a zero-argument routine `f`, returns a report — the argument parser returns
NIL for a string without `'('` and `strtok` yields the whole string as the
name, so no parse error is raised. -/
theorem c2_counterexample :
    (pg_trace_tool envF0 "f" st0).fst = .ok (reportHeader ++ "没有找到任何执行记录\n") := by
  rfl

/-- C2 (amended): when `'('` is present and `')'` is absent the invocation
fails with a parse-class error (for `"f(1,2"` specifically the
missing-closing-parenthesis error); when `'('` is absent the argument parser
returns zero tokens without error and the call proceeds to resolution as a
zero-argument call (failing with ResolutionError only when no matching
routine exists). -/
theorem c2_amended :
    (∀ (env : Env) (s0 : St) (call : String),
      '(' ∈ call.toList → ')' ∉ call.toList →
      ∃ e, (pg_trace_tool env call s0).fst = .error e ∧ isParseErr e = true) ∧
    (∀ call : String, '(' ∉ call.toList → parse_function_arguments call = .ok []) ∧
    (pg_trace_tool envNoCat "f" st0).fst = .error (.resolution "f") ∧
    (pg_trace_tool envF0 "f(1,2" st0).fst = .error .parseMissingClose := by
  refine ⟨?_, ?_, by rfl, by rfl⟩
  · intro env s0 call hin hout
    have hargs : parse_function_arguments call = .error .parseMissingClose := by
      obtain ⟨r, hr, hsub⟩ := afterFirstParen_mem call.toList hin
      have hnr : ')' ∉ r := fun hx => hout (hsub _ hx)
      have hr' : afterFirstParen call.data = some r := hr
      simp [parse_function_arguments, hr', beforeLastParen_none r hnr]
    cases hn : parsed_name call with
    | none =>
      refine ⟨.parseBadCall, ?_, rfl⟩
      simp [pg_trace_tool, pg_trace_tool_try, parse_function_call, hn]
    | some nm =>
      by_cases hq : stringToQualifiedNameList nm = []
      · refine ⟨.invalidName, ?_, rfl⟩
        simp [pg_trace_tool, pg_trace_tool_try, parse_function_call, hn, hq]
      · refine ⟨.parseMissingClose, ?_, rfl⟩
        simp [pg_trace_tool, pg_trace_tool_try, parse_function_call, hn, hq, hargs]
  · intro call hmem
    have h2 : afterFirstParen call.data = none := afterFirstParen_none call.toList hmem
    simp [parse_function_arguments, h2]

/-- Witness for C2 (amended): `"f(1,2"` contains `'('` and no `')'` and
indeed fails with a parse-class error. -/
theorem c2_witness :
    ∃ e, (pg_trace_tool envF0 "f(1,2" st0).fst = Except.error e ∧ isParseErr e = true :=
  c2_amended.1 envF0 st0 "f(1,2" (by decide) (by decide)

/-- C3 counterexample: the claim says 3 literal tokens against a
2-parameter routine fail with an ArityError, but with a catalog declaring
only a 2-parameter `f`, the call `"f(1,2,3)"` fails with the resolution
error "function f does not exist" (the lookup is keyed on name and token
count), not with the arity error. -/
theorem c3_counterexample :
    (pg_trace_tool envF2 "f(1,2,3)" st0).fst = .error (.resolution "f") ∧
    (pg_trace_tool envF2 "f(1,2,3)" st0).fst ≠ .error (.arity 3 2) := by
  have h1 : (pg_trace_tool envF2 "f(1,2,3)" st0).fst = .error (.resolution "f") := by rfl
  refine ⟨h1, ?_⟩
  rw [h1]
  simp

/-- C3 (amended): every call supplying 3 literal tokens to the name `f`,
against a catalog declaring only a 2-parameter routine `f`, fails with a
ResolutionError raised at name-and-arity lookup — before any literal is
coerced, hence independently of whether the literals are individually
valid; the defensive arity re-check inside `execute_function` is
unreachable through the entry point because resolution is keyed on the
token count. -/
theorem c3_amended (s0 : St) (call : String) (toks : List String) (nm : String)
    (h1 : parsed_name call = some nm)
    (h2 : stringToQualifiedNameList nm = ["f"])
    (h3 : parse_function_arguments call = .ok toks)
    (h4 : toks.length = 3) :
    (pg_trace_tool envF2 call s0).fst = .error (.resolution "f") := by
  have hpc : parse_function_call envF2 call = .error (.resolution "f") := by
    simp [parse_function_call, h1, h2, h3, h4, lookupFuncName, envF2, mkEnv, nameListToString]
  simp [pg_trace_tool, pg_trace_tool_try, hpc]

/-- Witness for C3 (amended): the call `"f(1,2,3)"` supplies the three
tokens `1`, `2`, `3` to `f` and fails with the resolution error. -/
theorem c3_witness : (pg_trace_tool envF2 "f(1,2,3)" stExt).fst = .error (.resolution "f") :=
  c3_amended stExt "f(1,2,3)" ["1", "2", "3"] "f" rfl rfl rfl rfl

/-- C4: invoking routine `f` whose execution triggers the nested statements
`S1` then `S2` (in that temporal order) makes the captured trace log
`[entry S2, entry S1]` — most recently captured first, because each new
entry is prepended — and the rendered report lists entry #1 = S2 and
entry #2 = S1. -/
theorem c4_trace_order (S1 S2 : String) :
    (execute_statements ⟨[], .traceStart, .traceRun, .noHook, .noHook, some "f", 0⟩
        [S1, S2]).trace_list = [⟨"f", S2, 1⟩, ⟨"f", S1, 0⟩] ∧
    (pg_trace_tool (envTrace S1 S2) "f()" st0).fst =
      .ok (((reportHeader ++ renderEntry (fun n => toString n) 1 ⟨"f", S2, 1⟩)
        ++ renderEntry (fun n => toString n) 2 ⟨"f", S1, 0⟩)
        ++ ("总计执行记录数: " ++ toString 2 ++ "\n")) :=
  ⟨rfl, rfl⟩

/-- C5 counterexample: the claim, quantified over every call string
containing `'('` and `')'`, says the qualified name is the substring before
the first `'('`; on `"(1)"` that substring is empty, but `strtok` skips the
leading delimiter and the parser takes `"1)"` as the name. -/
theorem c5_counterexample :
    parsed_name "(1)" = some "1)" ∧ ¬ parsed_name "(1)" = some "" := by
  exact ⟨by rfl, by decide⟩

/-- C5 (amended): for every call string whose first character is not `'('`,
the parser returns the substring before the first `'('` (the longest prefix
without it) as the qualified name; the substring between the first `'('`
and the last `')'` is split on `','` with empty positions dropped and
leading whitespace trimmed from each token; in particular
`"f(1, 'a', 2)"` yields name `f` and tokens `["1", "'a'", "2"]`, and
`"f()"` yields name `f` and zero tokens. -/
theorem c5_amended :
    (∀ (s : String) (c : Char) (cs : List Char), s.toList = c :: cs → c ≠ '(' →
      parsed_name s = some (String.mk (s.toList.takeWhile (fun x => x ≠ '(')))) ∧
    (∀ (s : String) (r inner : List Char),
      afterFirstParen s.toList = some r → beforeLastParen r = some inner →
      parse_function_arguments s =
        .ok (((splitOnComma inner).filter (fun l => !l.isEmpty)).map
          (fun t => String.mk (t.dropWhile isSpaceC)))) ∧
    parsed_name "f(1, 'a', 2)" = some "f" ∧
    parse_function_arguments "f(1, 'a', 2)" = .ok ["1", "'a'", "2"] ∧
    parsed_name "f()" = some "f" ∧
    parse_function_arguments "f()" = .ok [] := by
  refine ⟨?_, ?_, by rfl, by rfl, by rfl, by rfl⟩
  · intro s c cs h hc
    have h' : s.data = c :: cs := h
    simp [parsed_name, strtok_paren, h', List.dropWhile_cons, hc, String.toList]
  · intro s r inner h1 h2
    have h1' : afterFirstParen s.data = some r := h1
    simp [parse_function_arguments, h1', h2, strtok_commas_eq]

/-- Witness for C5 (amended): a namespaced name before the first `'('` is
returned verbatim, and a token list with interior whitespace is split and
leading-trimmed. -/
theorem c5_witness :
    parsed_name "sch.fn(7)" = some "sch.fn" ∧
    parse_function_arguments "ww( 8 , 9 )" = .ok ["8 ", "9 "] := by
  constructor
  · exact (c5_amended.1 "sch.fn(7)" 's' "ch.fn(7)".toList (by decide) (by decide)).trans
      (by decide)
  · exact (c5_amended.2.1 "ww( 8 , 9 )" " 8 , 9 )".toList " 8 , 9 ".toList (by decide)
      (by decide)).trans (by rfl)

/-- C6: for any argument position, when the declared parameter type's
literal-parsing routine fails on the raw token, coercion fails with the
literal-conversion error carrying both the type name and the offending
literal text; end to end, the literal `"abc"` against the integer-typed
parameter of `g` yields the error naming `int4` and `"abc"`. -/
theorem c6_literal_conversion :
    (∀ (env : Env) (oid : Nat) (a : String) (rest : List String) (i : Nat) (ty : String),
      get_func_argtype env oid i = .ok ty →
      env.hasInputFn ty = true →
      env.inputFn ty a = none →
      coerce_args env oid (a :: rest) i = .error (.literalConversion ty a)) ∧
    (pg_trace_tool envG "g(abc)" st0).fst = .error (.literalConversion "int4" "abc") := by
  constructor
  · intro env oid a rest i ty h1 h2 h3
    simp [coerce_args, h1, h2, h3]
  · rfl

/-- Witness for C6: the integer input function of the concrete host rejects
`"abc"`, so coercing the token list `["abc"]` for `g` fails with the error
carrying `int4` and `"abc"`. -/
theorem c6_witness :
    coerce_args envG 2 ["abc"] 0 = .error (.literalConversion "int4" "abc") :=
  c6_literal_conversion.1 envG 2 "abc" [] 0 "int4" rfl rfl rfl

/-- C7: a routine whose invocation succeeds but produces a null (absent)
result makes the entry point fail with the null-result error — never a
success report, not even a zero-entry one — regardless of which nested
statements the routine ran and of the initial state. -/
theorem c7_null_result (body : List String) (s0 : St) :
    (pg_trace_tool (envP body) "p()" s0).fst = .error .nullResult := by
  rfl

/-- C8: the report formatter is a pure function of the trace log, equal to
the spec-side rendering: for an empty log it emits the explicit
"no records" line instead of an entry list, and for a nonempty log it
emits each entry in log order with a 1-based index, routine name,
statement text and formatted timestamp, followed by a trailing
count-of-entries line. -/
theorem c8_report_formatter (fmt : Nat → String) (log : List TraceEntry) :
    generate_trace_report fmt log = report_spec fmt log := by
  cases log with
  | nil => rfl
  | cons e rest =>
    simp only [generate_trace_report, reportLoop_eq, report_spec]
    simp [List.length_cons]

/-- C9: the `strtok_r`-based comma split collapses adjacent delimiters —
it equals the naive split with the empty positions silently dropped — so
parsing `"f(1,,2)"` yields exactly the two tokens `["1", "2"]` and the call
resolves against the 2-parameter `f` (oid 9), not a 3-parameter one. -/
theorem c9_strtok_collapses :
    (∀ cs : List Char, strtok_commas cs = (splitOnComma cs).filter (fun l => !l.isEmpty)) ∧
    parse_function_arguments "f(1,,2)" = .ok ["1", "2"] ∧
    parse_function_call envF32 "f(1,,2)" = .ok (9, ["1", "2"]) := by
  exact ⟨strtok_commas_eq, by rfl, by rfl⟩

/-- C10: every successfully coerced argument vector marks every positional
argument non-null (`argnull[i] = false` for all filled positions) and has
exactly one entry per raw token, so the invocation never receives an SQL
NULL argument regardless of the literal text supplied. -/
theorem c10_argnull_false :
    ∀ (env : Env) (oid : Nat) (args : List String) (i : Nat) (v : List (String × Bool)),
      coerce_args env oid args i = .ok v →
      (∀ p ∈ v, p.2 = false) ∧ v.length = args.length := by
  intro env oid args
  induction args with
  | nil =>
    intro i v h
    simp only [coerce_args] at h
    injection h with h1
    subst h1
    simp
  | cons a rest ih =>
    intro i v h
    cases hg : get_func_argtype env oid i with
    | error e => simp [coerce_args, hg] at h
    | ok ty =>
      by_cases hin : env.hasInputFn ty = true
      · cases hv : env.inputFn ty a with
        | none => simp [coerce_args, hg, hin, hv] at h
        | some w =>
          cases hc : coerce_args env oid rest (i + 1) with
          | error e => simp [coerce_args, hg, hin, hv, hc] at h
          | ok vs =>
            simp only [coerce_args, hg, hin, hv, hc, if_true, Except.ok.injEq] at h
            subst h
            obtain ⟨ha, hl⟩ := ih (i + 1) vs hc
            refine ⟨?_, by simp [hl]⟩
            intro p hp
            rcases List.mem_cons.mp hp with hp1 | hp1
            · rw [hp1]
            · exact ha p hp1
      · simp [coerce_args, hg, hin] at h

/-- Witness for C10: coercing the single literal `"NULL"` for the
text-parameter routine `t` succeeds with the value `"NULL"` (the literal is
handed to the input parser as text) and its `argnull` flag is `false`. -/
theorem c10_witness :
    coerce_args envT 4 ["NULL"] 0 = .ok [("NULL", false)] ∧
    (∀ p ∈ [("NULL", false)], Prod.snd p = false) :=
  ⟨rfl, (c10_argnull_false envT 4 ["NULL"] 0 [("NULL", false)] rfl).1⟩
